import Mathlib

/-!
Shallow embedding of the `resourcely` tiered resource-caching reader.

Time is modelled in whole seconds as `Nat`.  The external collaborators
(filesystem directory scan, codec, network fetch) are modelled by explicit
parameters: a directory is a list of `DiskFile` records carrying the file
name and the codec's parse outcome for the resource's declared format, and
the network fetch outcome is an `Option` parameter.  Locks are elided:
the embedding gives the sequential meaning of each operation.
-/

set_option autoImplicit false

namespace Resourcely

/-- Declared content format of a resource (`traits.rs`, `ResourceFileType`). -/
inductive ResourceFileType where
  | Json
  | Yaml
  | Toml
  | Text
deriving DecidableEq, Repr

/-- Error outcomes reachable from the reader algorithms in `base.rs`.
`StaleInternalNone` stands for the string
"No fresh or stale data available for resource: …", `FreshingData` for
"Failed to fetch data from remote URL", and `UnsupportedFileType` for the
save-path failure on a non-JSON/YAML declared format. -/
inductive ReaderError where
  | StaleInternalNone
  | FreshingData
  | UnsupportedFileType
deriving DecidableEq, Repr

/-- Result of a successful read (`traits.rs`, `DataResult`). -/
inductive DataResult (T : Type) where
  | Fresh (data : T)
  | Stale (data : T)
deriving DecidableEq, Repr

/-- A candidate cache file on disk: its file name and the codec's parse
outcome for the resource's value type (`none` models a parse failure). -/
structure DiskFile (T : Type) where
  name : String
  content : Option T
deriving DecidableEq, Repr

/-- Boolean test that `p` is a prefix of `s`, char by char
(models Rust `str::starts_with`). -/
def isPrefixOfChars : List Char → List Char → Bool
  | [], _ => true
  | _ :: _, [] => false
  | a :: as, b :: bs => a = b && isPrefixOfChars as bs

/-- `get_files_starts_with` (`utilities.rs`): files of the directory whose
name starts with the given file-name prefix, in directory-scan order. -/
def getFilesStartsWith {T : Type} (file_name : String) (dir : List (DiskFile T)) :
    List (DiskFile T) :=
  dir.filter (fun f => isPrefixOfChars file_name.data f.name.data)

/-- Split a character list on a separator character
(models Rust `str::split(c)`; the result is always nonempty). -/
def splitOnChar (c : Char) : List Char → List (List Char)
  | [] => [[]]
  | a :: as =>
    match splitOnChar c as with
    | [] => [[]]
    | g :: gs => if a = c then [] :: g :: gs else (a :: g) :: gs

/-- Rust `u64::from_str`: an optional leading `+`, then at least one digit,
value below `2 ^ 64`. -/
def parseU64 (cs : List Char) : Option Nat :=
  let ds := match cs with
    | '+' :: rest => rest
    | other => other
  if ds ≠ [] ∧ ds.all Char.isDigit then
    let n := ds.foldl (fun acc c => acc * 10 + (c.toNat - 48)) 0
    if n < 2 ^ 64 then some n else none
  else none

/-- The timestamp-from-filename extraction of
`parse_file_with_timestamp_by_path` (`utilities.rs`): the substring after
the last `-` and before the first `.` of that substring, parsed as `u64`. -/
def parseTimestampFromName (nm : String) : Option Nat :=
  let lastSeg := (splitOnChar '-' nm.data).getLastD []
  parseU64 (lastSeg.takeWhile (fun ch => ch ≠ '.'))

/-- `parse_file` (`utilities.rs`): the codec parses the file content for
JSON and YAML only; TOML and Text are rejected. -/
def parseFile {T : Type} (file_type : ResourceFileType) (f : DiskFile T) : Option T :=
  match file_type with
  | .Json => f.content
  | .Yaml => f.content
  | .Toml => none
  | .Text => none

/-- `parse_file_with_timestamp_by_path` (`utilities.rs`): succeeds when both
the filename timestamp and the content parse succeed. -/
def parseFileWithTimestamp {T : Type} (file_type : ResourceFileType) (f : DiskFile T) :
    Option (T × Nat) :=
  match parseTimestampFromName f.name, parseFile file_type f with
  | some ts, some d => some (d, ts)
  | _, _ => none

/-- First file of the list that `parse_file_with_timestamp_by_path` accepts
(the `for … if let Ok(…)` loop shared by both `get_disk_cached_data`
implementations). -/
def firstParseable {T : Type} (file_type : ResourceFileType) :
    List (DiskFile T) → Option (T × Nat)
  | [] => none
  | f :: rest =>
    match parseFileWithTimestamp file_type f with
    | some r => some r
    | none => firstParseable file_type rest

/-- `save_to_disk_override` (`utilities.rs`): serializes for JSON/YAML only
(`none` models the `UnsupportedFileType` failure) and overwrites the file at
the given name, or creates it. -/
def save_to_disk_override {T : Type} (file_type : ResourceFileType) (dir : List (DiskFile T))
    (nm : String) (d : T) : Option (List (DiskFile T)) :=
  match file_type with
  | .Json | .Yaml =>
    if dir.any (fun f => f.name = nm) then
      some (dir.map (fun f => if f.name = nm then { name := nm, content := some d } else f))
    else
      some (dir ++ [{ name := nm, content := some d }])
  | .Toml | .Text => none

/-- `SystemTime::elapsed` in seconds: fails when the recorded timestamp is
in the future of `now` (clock rollback). -/
def elapsedSecs (ts now : Nat) : Option Nat :=
  if ts ≤ now then some (now - ts) else none

/-- Rust `u64` subtraction `a - b`, which is only defined when it does not
underflow (it panics in debug builds and wraps in release builds). -/
def checkedSub (a b : Nat) : Option Nat :=
  if b ≤ a then some (a - b) else none

/-- The freshness computation of `base.rs` (`get_internal_data` and
`get_disk_cached_data`): elapsed time below the configured TTL, always
fresh with no TTL, and conservatively stale on clock rollback. -/
def timestampIsFresh (tmo : Option Nat) (ts now : Nat) : Bool :=
  match elapsedSecs ts now with
  | some e =>
    match tmo with
    | some t => decide (e < t)
    | none => true
  | none => false

/-- The mutable cache slot (`base.rs`, `Cache<T>`). -/
structure Cache (T : Type) where
  data : Option T
  is_stale : Bool
  timestamp : Nat
deriving DecidableEq, Repr

/-- `ResourceState` with its `ResourceProps` flattened (`base.rs`):
static identity plus the cache slot.  The URL plays no role in the pure
embedding and is omitted; `timeout` is the optional TTL in seconds. -/
structure ResourceState (T : Type) where
  file_name : String
  file_type : ResourceFileType
  storage_directory : String
  cache : Cache T
  timeout : Option Nat
deriving DecidableEq, Repr

namespace ResourceState

variable {T : Type}

/-- `is_marked_stale` (`base.rs`): the force-stale flag. -/
def is_marked_stale (st : ResourceState T) : Bool :=
  st.cache.is_stale

/-- `mark_stale` (`base.rs`): sets the force-stale flag. -/
def mark_stale (st : ResourceState T) : ResourceState T :=
  { st with cache := { st.cache with is_stale := true } }

/-- `get_internal_data` (`base.rs`): `none` when the slot is empty, else
the value, a freshness bit computed from the slot timestamp, and the slot
timestamp. -/
def get_internal_data (st : ResourceState T) (now : Nat) : Option (T × Bool × Nat) :=
  match st.cache.data with
  | none => none
  | some d => some (d, timestampIsFresh st.timeout st.cache.timestamp now, st.cache.timestamp)

/-- `set_internal_cache` (`base.rs`) as written: installs the new value,
clears the force-stale flag, and keeps the slot's previous timestamp
(the code copies `internal_cache_guard.timestamp` back into the new slot). -/
def set_internal_cache (st : ResourceState T) (d : T) : ResourceState T :=
  { st with cache := { data := some d, is_stale := false, timestamp := st.cache.timestamp } }

/-- `get_disk_cached_data` (`base.rs`): first parseable candidate file in
scan order; the freshness bit is computed from the in-memory slot's
timestamp (the code reads `internal_cache_guard.timestamp`), while the
returned timestamp is the one embedded in the file name. -/
def get_disk_cached_data (st : ResourceState T) (dir : List (DiskFile T)) (now : Nat) :
    Option (T × Bool × Nat) :=
  match firstParseable st.file_type (getFilesStartsWith st.file_name dir) with
  | none => none
  | some (d, ts) => some (d, timestampIsFresh st.timeout st.cache.timestamp now, ts)

/-- `get_file_path` (`base.rs`): joins the storage directory and the plain
file name. -/
def get_file_path (st : ResourceState T) : String :=
  st.storage_directory ++ "/" ++ st.file_name

end ResourceState

/-- The `Remote<T>` resource of `remote.rs`: identity, optional TTL, the
cache slot `Option (T, seconds)`, and the force-stale flag.  The URL and
HTTP client play no role in the pure embedding and are omitted. -/
structure Remote (T : Type) where
  file_name : String
  file_type : ResourceFileType
  cache_directory : String
  timeout : Option Nat
  cached_data : Option (T × Nat)
  is_stale : Bool
deriving DecidableEq, Repr

namespace Remote

variable {T : Type}

/-- `Remote::get_internal_data` (`remote.rs`): the freshness test evaluates
the `u64` difference `since_in_secs - timestamp_in_secs`; an underflowing
subtraction (outer `none`) models the panic of that expression.  The inner
`Option` is the function's own `Option` result. -/
def get_internal_data (r : Remote T) (since : Nat) : Option (Option (T × Bool × Nat)) :=
  match r.cached_data with
  | none => some none
  | some (d, ts) =>
    match r.timeout with
    | some tmo =>
      match checkedSub since ts with
      | some age => some (some (d, decide (age < tmo), ts))
      | none => none
    | none => some (some (d, true, ts))

/-- `Remote::set_current_member` (`remote.rs`): installs the value with the
supplied current time and clears the force-stale flag. -/
def set_current_member (r : Remote T) (d : T) (now_since_epoch_start_in_secs : Nat) :
    Remote T :=
  { r with cached_data := some (d, now_since_epoch_start_in_secs), is_stale := false }

/-- `Remote::get_disk_cached_data` (`remote.rs`): first parseable candidate
in scan order; the freshness test evaluates `since_in_secs -
file_timestamp_in_secs` as a `u64` difference (outer `none` models an
underflow panic). -/
def get_disk_cached_data (r : Remote T) (dir : List (DiskFile T)) (since : Nat) :
    Option (Option (T × Bool × Nat)) :=
  match firstParseable r.file_type (getFilesStartsWith r.file_name dir) with
  | none => some none
  | some (d, ts) =>
    match r.timeout with
    | some tmo =>
      match checkedSub since ts with
      | some age => some (some (d, decide (age < tmo), ts))
      | none => none
    | none => some (some (d, true, ts))

end Remote

/-- `ResourceReader::get_data_or_default` (`traits.rs`), as a function of the
outcome of `get_data_or_error`: total, so it can never propagate a failure. -/
def getDataOrDefault {T : Type} [Inhabited T] (allow_stale : Bool)
    (r : Except ReaderError (DataResult T)) : T :=
  match r with
  | .ok (.Fresh d) => d
  | .ok (.Stale d) => if allow_stale then d else default
  | .error _ => default

/-- The local reader's disk read (`base.rs`, lines 255–266): only the file
at index 0 of the scan result is considered, parsed without consulting the
filename timestamp. -/
def localDriveProbe {T : Type} (st : ResourceState T) (dir : List (DiskFile T)) : Option T :=
  match (getFilesStartsWith st.file_name dir).head? with
  | some f => parseFile st.file_type f
  | none => none

/-- `DefaultLocalResourceReader::get_data_or_error` (`base.rs`): memory
probe, unconditional read of the *first* candidate disk file, stale
fallback, cache install.  Returns the result together with the updated
resource state. -/
def localGetDataOrError {T : Type} (st : ResourceState T) (dir : List (DiskFile T))
    (allow_stale : Bool) (now : Nat) :
    Except ReaderError (DataResult T) × ResourceState T :=
  match (if st.is_marked_stale then none else st.get_internal_data now) with
  | some (d, true, _) => (.ok (.Fresh d), st)
  | memProbe =>
    let stale_internal_data : Option T :=
      match memProbe with
      | some (d, _, _) => some d
      | none => none
    let fresh_data_from_drive : Option T := localDriveProbe st dir
    if fresh_data_from_drive.isNone && allow_stale then
      match stale_internal_data with
      | some d => (.ok (.Stale d), st)
      | none => (.error .StaleInternalNone, st)
    else
      match fresh_data_from_drive with
      | some d => (.ok (.Fresh d), st.set_internal_cache d)
      | none => (.error .FreshingData, st)

/-- `DefaultRemoteResourceReader::get_data_or_error` (`base.rs`).
`fresh_data_from_server` is the outcome of the network fetch followed by the
declared-format parse.  Returns the result together with the updated
resource state and directory contents. -/
def remoteGetDataOrError {T : Type} (st : ResourceState T) (dir : List (DiskFile T))
    (allow_stale : Bool) (now : Nat) (fresh_data_from_server : Option T) :
    Except ReaderError (DataResult T) × ResourceState T × List (DiskFile T) :=
  match (if st.is_marked_stale then none else st.get_internal_data now) with
  | some (d, true, _) => (.ok (.Fresh d), st, dir)
  | memProbe =>
    match (if st.is_marked_stale then none else st.get_disk_cached_data dir now) with
    | some (d, true, _) => (.ok (.Fresh d), st, dir)
    | diskProbe =>
      match fresh_data_from_server with
      | some d =>
        match save_to_disk_override st.file_type dir st.file_name d with
        | some newDir => (.ok (.Fresh d), st.set_internal_cache d, newDir)
        | none => (.error .UnsupportedFileType, st, dir)
      | none =>
        if allow_stale then
          match memProbe, diskProbe with
          | some (dm, _, tm), some (dd, _, td) =>
            if td > tm then (.ok (.Stale dd), st, dir) else (.ok (.Stale dm), st, dir)
          | some (dm, _, _), none => (.ok (.Stale dm), st, dir)
          | none, some (dd, _, _) => (.ok (.Stale dd), st, dir)
          | none, none => (.error .StaleInternalNone, st, dir)
        else (.error .FreshingData, st, dir)

end Resourcely

namespace Resourcely

/-- Concrete resource state with an empty cache slot (TTL 10 s). -/
def exampleStateEmpty : ResourceState Nat :=
  { file_name := "cfg", file_type := .Json, storage_directory := "d",
    cache := { data := none, is_stale := false, timestamp := 0 }, timeout := some 10 }

/-- Concrete resource state caching the value 1 at second 50 (TTL 10 s). -/
def exampleStateCached : ResourceState Nat :=
  { file_name := "cfg", file_type := .Json, storage_directory := "d",
    cache := { data := some 1, is_stale := false, timestamp := 50 }, timeout := some 10 }

/-- Concrete `remote.rs` resource caching the value 5 at second 7 (TTL 10 s). -/
def exampleRemoteCached : Remote Nat :=
  { file_name := "cfg", file_type := .Json, cache_directory := "d",
    timeout := some 10, cached_data := some (5, 7), is_stale := false }

/-- C1: counter to the disk-tier half of the claim, `base.rs` reports a
disk-tier value fresh although its own recorded (filename) timestamp is far
beyond the TTL: with TTL 10 s, a memory slot written at second 200 and a
disk candidate stamped at second 100, a read at second 205 reports the
memory value fresh (age 5 < 10, as the claim requires) *and* the disk
value fresh, though its own age is 105 ≥ 10 — its freshness bit is derived
from the memory slot's age instead of its own. -/
theorem c1_disk_freshness_ignores_file_age :
    ResourceState.get_internal_data
      { file_name := "cfg", file_type := .Json, storage_directory := "d",
        cache := { data := some 9, is_stale := false, timestamp := 200 }, timeout := some 10 }
      205
      = some (9, true, 200)
    ∧ ResourceState.get_disk_cached_data
      { file_name := "cfg", file_type := .Json, storage_directory := "d",
        cache := { data := some 9, is_stale := false, timestamp := 200 }, timeout := some 10 }
      [{ name := "cfg-100.json", content := some (7 : Nat) }] 205
      = some (7, true, 100)
    ∧ ¬ (205 - (100 : Nat) < 10) := by
  exact ⟨rfl, rfl, by decide⟩

/-- C2: counter to the claim, the `base.rs` `get_disk_cached_data` computes
the freshness bit from the in-memory slot's timestamp: with a memory slot
timestamp of 100 (age 5 < TTL 10 at time 105) and a disk candidate whose
filename timestamp is 0 (age 105 ≥ TTL 10), the disk value is reported
fresh even though its own embedded timestamp is far beyond the TTL. -/
theorem c2_disk_freshness_uses_memory_timestamp :
    ResourceState.get_disk_cached_data
      { file_name := "cfg", file_type := .Json, storage_directory := "d",
        cache := { data := none, is_stale := false, timestamp := 100 }, timeout := some 10 }
      [{ name := "cfg-0.json", content := some (7 : Nat) }] 105
      = some (7, true, 0)
    ∧ ¬ (105 - (0 : Nat) < 10) := by
  exact ⟨rfl, by decide⟩

/-- C3: counter to the claim, the `base.rs` `set_internal_cache` keeps the
slot's previous timestamp (here 5) instead of the current time of the call,
while `remote.rs`'s `set_current_member` does install the supplied current
time (here 10); both clear the force-stale flag. -/
theorem c3_set_internal_cache_keeps_old_timestamp :
    ResourceState.set_internal_cache
      { file_name := "cfg", file_type := .Json, storage_directory := "d",
        cache := { data := some 1, is_stale := true, timestamp := 5 }, timeout := some 10 }
      (2 : Nat)
      = { file_name := "cfg", file_type := .Json, storage_directory := "d",
          cache := { data := some 2, is_stale := false, timestamp := 5 }, timeout := some 10 }
    ∧ Remote.set_current_member
      { file_name := "cfg", file_type := .Json, cache_directory := "d", timeout := some 10,
        cached_data := some (1, 5), is_stale := true }
      (2 : Nat) 10
      = { file_name := "cfg", file_type := .Json, cache_directory := "d", timeout := some 10,
          cached_data := some (2, 10), is_stale := false } := by
  exact ⟨rfl, rfl⟩

/-- C6: `get_data_or_default` is a total mapping of the primitive's
outcome: `Fresh v ↦ v`; `Stale v ↦ v` exactly when `allow_stale`, else the
default; every error `↦` the default. -/
theorem c6_get_data_or_default_total_mapping {T : Type} [Inhabited T]
    (a : Bool) (v : T) (e : ReaderError) :
    getDataOrDefault a (.ok (.Fresh v)) = v
    ∧ getDataOrDefault true (.ok (.Stale v)) = v
    ∧ getDataOrDefault false (.ok (.Stale v)) = (default : T)
    ∧ getDataOrDefault a (.error e) = (default : T) := by
  exact ⟨rfl, rfl, rfl, rfl⟩

/-- C7: counter to the claim, a successful remote fetch is persisted under
the *plain* file name `"cfg"` (no `-{unix_timestamp_seconds}.{ext}`
suffix), a name whose embedded timestamp does not parse, so the remote
disk-cache read path can never use the written entry; a name following the
claimed pattern would parse.  Memory install and `Fresh` return do happen. -/
theorem c7_remote_persist_unstamped_filename :
    remoteGetDataOrError exampleStateEmpty [] true 100 (some 42)
      = (.ok (.Fresh 42),
         { exampleStateEmpty with
            cache := { data := some 42, is_stale := false, timestamp := 0 } },
         [{ name := "cfg", content := some 42 }])
    ∧ parseTimestampFromName "cfg" = none
    ∧ firstParseable ResourceFileType.Json
        [({ name := "cfg", content := some 42 } : DiskFile Nat)] = none
    ∧ parseTimestampFromName "cfg-100.json" = some 100 := by
  exact ⟨rfl, by decide, rfl, by decide⟩

/-- C4: for the remote reader with `allow_stale = true` and no fresh remote
data, the stale candidates recorded by the memory and disk probes are
resolved by most-recent-timestamp; a tie goes to the memory candidate; a
single candidate is returned as is; no candidate fails with
`StaleInternalNone`. -/
theorem c4_remote_stale_tiebreak {T : Type} (st : ResourceState T) (dir : List (DiskFile T))
    (now : Nat) (mres dres : Option (T × Nat))
    (hm : (if st.is_marked_stale then none else st.get_internal_data now)
        = mres.map (fun p => (p.1, false, p.2)))
    (hd : (if st.is_marked_stale then none else st.get_disk_cached_data dir now)
        = dres.map (fun p => (p.1, false, p.2))) :
    remoteGetDataOrError st dir true now none
      = (match mres, dres with
         | some (dm, tm), some (dd, td) =>
           if td > tm then (Except.ok (DataResult.Stale dd), st, dir)
           else (Except.ok (DataResult.Stale dm), st, dir)
         | some (dm, _), none => (Except.ok (DataResult.Stale dm), st, dir)
         | none, some (dd, _) => (Except.ok (DataResult.Stale dd), st, dir)
         | none, none => (Except.error ReaderError.StaleInternalNone, st, dir)) := by
  unfold remoteGetDataOrError
  rw [hm, hd]
  rcases mres with _ | ⟨dm, tm⟩ <;> rcases dres with _ | ⟨dd, td⟩ <;> rfl

/-- C4 witness: a stale memory candidate from second 50 and a stale disk
candidate from second 60, probed at second 100, resolve to the disk
candidate. -/
theorem c4_remote_stale_tiebreak_witness :
    remoteGetDataOrError exampleStateCached [⟨"cfg-60.json", some 2⟩] true 100 none
      = (Except.ok (DataResult.Stale 2), exampleStateCached, [⟨"cfg-60.json", some 2⟩]) := by
  exact c4_remote_stale_tiebreak exampleStateCached [⟨"cfg-60.json", some 2⟩] 100
    (some (1, 50)) (some (2, 60)) (by decide) (by decide)

/-- C5 counterexample: with no parseable disk file, no cached value and
`allow_stale = false`, the local reader fails with the `FreshingData`
message ("Failed to fetch data from remote URL"), not with
`StaleInternalNone` as the claim states. -/
theorem c5_counterexample_error_kind :
    (localGetDataOrError exampleStateEmpty [] false 0).1
      = Except.error ReaderError.FreshingData
    ∧ ReaderError.FreshingData ≠ ReaderError.StaleInternalNone := by
  exact ⟨rfl, by decide⟩

/-- C5 (amended): when no disk value parses, the local reader returns
`Stale(candidate)` for `allow_stale = true` with a stale memory candidate,
fails with `StaleInternalNone` for `allow_stale = true` without one, and
fails with `FreshingData` for `allow_stale = false`. -/
theorem c5_local_no_disk_error_split {T : Type} (st : ResourceState T)
    (dir : List (DiskFile T)) (now : Nat) (mres : Option T)
    (hm : (if st.is_marked_stale then none else st.get_internal_data now)
        = mres.map (fun d => (d, false, st.cache.timestamp)))
    (hnd : localDriveProbe st dir = none) :
    (localGetDataOrError st dir true now).1
      = mres.elim (Except.error ReaderError.StaleInternalNone)
          (fun d => Except.ok (DataResult.Stale d))
    ∧ (localGetDataOrError st dir false now).1 = Except.error ReaderError.FreshingData := by
  rcases mres with _ | d <;>
    simp only [Option.map_none', Option.map_some'] at hm <;>
    refine ⟨?_, ?_⟩ <;>
    · unfold localGetDataOrError
      rw [hm, hnd]
      rfl

/-- C5 witness: a stale memory candidate (cached at second 50, read at
second 100, TTL 10) with an empty directory: `Stale 1` when stale values
are allowed, `FreshingData` when not. -/
theorem c5_local_no_disk_error_split_witness :
    (localGetDataOrError exampleStateCached [] true 100).1 = Except.ok (DataResult.Stale 1)
    ∧ (localGetDataOrError exampleStateCached [] false 100).1
      = Except.error ReaderError.FreshingData := by
  exact c5_local_no_disk_error_split exampleStateCached [] 100 (some 1) (by decide) rfl

/-- C8 counterexample: for the local reader, a first candidate that fails
to parse is *not* followed by the next candidate: with scan order
`["cfg-a.json" (unparseable), "cfg-5.json" (parses to 3)]` the reader falls
through to "no disk data" and errors, although the second candidate
parses. -/
theorem c8_counterexample_local_no_fallthrough :
    (localGetDataOrError exampleStateEmpty
        [⟨"cfg-a.json", none⟩, ⟨"cfg-5.json", some 3⟩] false 0).1
      = Except.error ReaderError.FreshingData
    ∧ parseFile ResourceFileType.Json
        ({ name := "cfg-5.json", content := some 3 } : DiskFile Nat) = some 3 := by
  exact ⟨rfl, rfl⟩

/-- C8 (amended): the shared disk-scan loop of `get_disk_cached_data` skips
a candidate that fails to parse and tries the next one, but the local
reader considers only the first candidate in scan order and treats its
parse failure as "no disk data". -/
theorem c8_first_parseable_skip_and_local_head_only {T : Type} (st : ResourceState T)
    (f : DiskFile T) (rest : List (DiskFile T)) (dir : List (DiskFile T)) (now : Nat)
    (hf : parseFileWithTimestamp st.file_type f = none)
    (hpf : parseFile st.file_type f = none)
    (hhead : (getFilesStartsWith st.file_name dir).head? = some f)
    (hempty : st.cache.data = none) (hstale : st.cache.is_stale = false) :
    firstParseable st.file_type (f :: rest) = firstParseable st.file_type rest
    ∧ (localGetDataOrError st dir false now).1 = Except.error ReaderError.FreshingData := by
  constructor
  · have hstep : firstParseable st.file_type (f :: rest)
        = match parseFileWithTimestamp st.file_type f with
          | some r => some r
          | none => firstParseable st.file_type rest := rfl
    rw [hstep, hf]
  · unfold localGetDataOrError localDriveProbe
    rw [hhead]
    simp only [ResourceState.is_marked_stale, hstale, ResourceState.get_internal_data, hempty,
      hpf, if_false]
    rfl

/-- C8 witness: the scan loop skips the unparseable `"cfg-a.json"` and the
local reader, facing the same first candidate, errors instead. -/
theorem c8_first_parseable_skip_and_local_head_only_witness :
    firstParseable ResourceFileType.Json
        [({ name := "cfg-a.json", content := none } : DiskFile Nat),
         { name := "cfg-5.json", content := some 3 }]
      = firstParseable ResourceFileType.Json [{ name := "cfg-5.json", content := some 3 }]
    ∧ (localGetDataOrError exampleStateEmpty
        [⟨"cfg-a.json", none⟩, ⟨"cfg-5.json", some 3⟩] false 7).1
      = Except.error ReaderError.FreshingData := by
  exact c8_first_parseable_skip_and_local_head_only exampleStateEmpty
    ⟨"cfg-a.json", none⟩ [⟨"cfg-5.json", some 3⟩]
    [⟨"cfg-a.json", none⟩, ⟨"cfg-5.json", some 3⟩] 7
    (by decide) rfl (by decide) rfl rfl

/-- C9: with `allow_stale = false`, neither reader ever returns an `Ok`
`Stale` result, whatever the state, directory contents, time, or fetch
outcome. -/
theorem c9_no_stale_without_allow {T : Type} (st : ResourceState T)
    (dir : List (DiskFile T)) (now : Nat) (server : Option T) (d : T) :
    (localGetDataOrError st dir false now).1 ≠ Except.ok (DataResult.Stale d)
    ∧ (remoteGetDataOrError st dir false now server).1 ≠ Except.ok (DataResult.Stale d) := by
  constructor
  · unfold localGetDataOrError
    split
    · simp
    · simp only [Bool.and_false, Bool.false_eq_true, if_false]
      split <;> simp
  · unfold remoteGetDataOrError
    split
    · simp
    · split
      · simp
      · split
        · split <;> simp
        · simp

/-- C9 witness: the never-`Stale` guarantee at a concrete input with a
stale memory candidate present. -/
theorem c9_no_stale_without_allow_witness :
    (localGetDataOrError exampleStateCached [] false 100).1
      ≠ Except.ok (DataResult.Stale 1)
    ∧ (remoteGetDataOrError exampleStateCached [] false 100 none).1
      ≠ Except.ok (DataResult.Stale 1) := by
  exact c9_no_stale_without_allow exampleStateCached [] 100 none 1

/-- C10: the `remote.rs` freshness computations evaluate the `u64`
difference `now - timestamp`; for a configured TTL the computation
underflows (panics) exactly when the timestamp exceeds `now`, and under the
precondition that every consulted timestamp is at most `now` both
`get_internal_data` and `get_disk_cached_data` are total. -/
theorem c10_remote_u64_sub_underflow {T : Type} (r : Remote T) (v : T) (ts since : Nat)
    (dir : List (DiskFile T)) (hmem : r.cached_data = some (v, ts)) :
    (ts ≤ since → (r.get_internal_data since).isSome = true)
    ∧ (∀ tmo, r.timeout = some tmo → since < ts → r.get_internal_data since = none)
    ∧ (∀ d td, firstParseable r.file_type (getFilesStartsWith r.file_name dir) = some (d, td) →
        (td ≤ since → (r.get_disk_cached_data dir since).isSome = true)
        ∧ (∀ tmo, r.timeout = some tmo → since < td →
            r.get_disk_cached_data dir since = none))
    ∧ (firstParseable r.file_type (getFilesStartsWith r.file_name dir) = none →
        (r.get_disk_cached_data dir since).isSome = true) := by
  refine ⟨?_, ?_, ?_, ?_⟩
  · intro h
    rcases htm : r.timeout with _ | tmo <;>
      simp [Remote.get_internal_data, hmem, htm, checkedSub, h]
  · intro tmo htm h
    simp [Remote.get_internal_data, hmem, htm, checkedSub, Nat.not_le.mpr h]
  · intro d td hfp
    constructor
    · intro h
      rcases htm : r.timeout with _ | tmo <;>
        simp [Remote.get_disk_cached_data, hfp, htm, checkedSub, h]
    · intro tmo htm h
      simp [Remote.get_disk_cached_data, hfp, htm, checkedSub, Nat.not_le.mpr h]
  · intro hfp
    simp [Remote.get_disk_cached_data, hfp]

/-- C10 witness: cached timestamp 7 at time 55 (no underflow, defined) and
a disk candidate from second 3 at time 55 (defined); the underflow case is
exercised by the same theorem at time 2 < 3 for the disk candidate. -/
theorem c10_remote_u64_sub_underflow_witness :
    (Remote.get_internal_data exampleRemoteCached 55).isSome = true
    ∧ Remote.get_disk_cached_data exampleRemoteCached [⟨"cfg-3.json", some 9⟩] 2 = none := by
  constructor
  · exact (c10_remote_u64_sub_underflow exampleRemoteCached 5 7 55 [] rfl).1 (by decide)
  · exact ((c10_remote_u64_sub_underflow exampleRemoteCached 5 7 2
      [⟨"cfg-3.json", some 9⟩] rfl).2.2.1 9 3 (by decide)).2 10 rfl (by decide)

end Resourcely
